import Mathlib

/- Verification of the citizen.lawconnect client authentication layer.
   Shallow embedding of: the Redux auth slice and ResetPassword screen
   (src/unnamed/part_000), the Navbar and ProtectedRoute components
   (src/unnamed/part_001), and the ForgotPassword / Register screens
   (src/src/pages/ForgotPassword.tsx). -/

/-- Decoded session token: the JWT payload fields the code reads
(`sub`, the subject email, and `exp`, the expiry timestamp) from
`JwtPayload` in the auth slice. -/
structure Token where
  sub : String
  exp : Nat
deriving DecidableEq, Repr

/-- Modelled from the spec: the Token Store (authService's `setAccessToken`,
`getAccessToken`, `removeAccessToken`) is not under src/; §4.1 gives the
contract `set(token)`, `get() -> token|absent`, `remove()` with one token
active at a time, so the store is just the optional current token. -/
abbrev TokenStore := Option Token

/-- Modelled from the spec: authService's `isTokenExpired` is not under src/;
§8 states `isExpired(t)` is true iff the embedded expiry timestamp is at or
before the current time. -/
def isTokenExpired (now : Nat) (t : Token) : Bool :=
  decide (t.exp ≤ now)

/-- The `User` interface of the auth slice. -/
structure User where
  id : String
  fullName : String
  email : String
  phoneNumber : String
  languagePreference : String
  location : String
deriving DecidableEq, Repr

/-- The `AuthState` interface of the auth slice. -/
structure AuthState where
  isAuthenticated : Bool
  user : Option User
  loading : Bool
  error : Option String
deriving DecidableEq, Repr

/-- The client as a whole: the Redux auth state plus the browser Token Store
(the reducers and thunks mutate both). -/
structure ClientState where
  auth : AuthState
  store : TokenStore
deriving DecidableEq, Repr

/-- `initialState` of the auth slice: `isAuthenticated: !!getAccessToken()`,
`user: null`, `loading: false`, `error: null`. -/
def initialState (store : TokenStore) : AuthState :=
  { isAuthenticated := store.isSome
    user := none
    loading := false
    error := none }

/-- The client state at module initialization. -/
def initClientState (store : TokenStore) : ClientState :=
  { auth := initialState store, store := store }

/-- JavaScript `m || d` on an optional string field: an absent or empty
(falsy) message yields the fallback `d`. -/
def jsOr (m : Option String) (d : String) : String :=
  match m with
  | some s => if s = "" then d else s
  | none => d

/-- The Redux actions the auth slice reacts to: the pending / fulfilled /
rejected actions of its seven thunks plus its two synchronous reducers
(`logout` and `clearError`).  `registerCitizen` and `changePassword` have no
`addCase` in `extraReducers`, so their actions fall through to the default
(state unchanged). -/
inductive AuthAction where
  | checkAuthPending
  | checkAuthFulfilled (accessToken : Token) (citizen : User)
  | checkAuthRejected (msg : String)
  | loginPending
  | loginFulfilled (accessToken : Token) (citizen : User)
  | loginRejected (msg : String)
  | refreshPending
  | refreshFulfilled (accessToken : Token) (citizen : User)
  | refreshRejected (msg : String)
  | fetchUserPending
  | fetchUserFulfilled (citizen : User)
  | fetchUserRejected (msg : String)
  | logoutPending
  | logoutFulfilled
  | logoutRejected (msg : String)
  | registerPending
  | registerFulfilled (response : String)
  | registerRejected (msg : String)
  | changePasswordPending
  | changePasswordFulfilled (response : String)
  | changePasswordRejected (msg : String)
  | logoutSync
  | clearErrorSync
deriving DecidableEq, Repr

/-- The auth slice's reducers (`reducers` and `extraReducers`), acting on the
combined client state because `checkAuth.rejected`, `loginByEmailThunk.rejected`
and the synchronous `logout` reducer also call `removeAccessToken()`. -/
def authReducer (s : ClientState) (a : AuthAction) : ClientState :=
  match a with
  | .checkAuthPending =>
      { s with auth := { s.auth with loading := true, error := none } }
  | .checkAuthFulfilled _ c =>
      { s with auth :=
        { isAuthenticated := true, user := some c, loading := false, error := none } }
  | .checkAuthRejected m =>
      { auth := { isAuthenticated := false, user := none, loading := false, error := some m }
        store := none }
  | .loginPending =>
      { s with auth := { s.auth with loading := true, error := none } }
  | .loginFulfilled _ c =>
      { s with auth :=
        { isAuthenticated := true, user := some c, loading := false, error := none } }
  | .loginRejected m =>
      { auth := { isAuthenticated := false, user := none, loading := false, error := some m }
        store := none }
  | .refreshPending =>
      { s with auth := { s.auth with loading := true, error := none } }
  | .refreshFulfilled _ c =>
      { s with auth :=
        { s.auth with loading := false, isAuthenticated := true, user := some c } }
  | .refreshRejected m =>
      { s with auth :=
        { s.auth with loading := false, error := some m, isAuthenticated := false, user := none } }
  | .fetchUserPending =>
      { s with auth := { s.auth with loading := true, error := none } }
  | .fetchUserFulfilled c =>
      { s with auth := { s.auth with loading := false, user := some c } }
  | .fetchUserRejected m =>
      { s with auth :=
        { s.auth with loading := false, error := some m, user := none, isAuthenticated := false } }
  | .logoutPending =>
      { s with auth := { s.auth with loading := true, error := none } }
  | .logoutFulfilled =>
      { s with auth :=
        { isAuthenticated := false, user := none, loading := false, error := none } }
  | .logoutRejected m =>
      { s with auth := { s.auth with loading := false, error := some m } }
  | .registerPending => s
  | .registerFulfilled _ => s
  | .registerRejected _ => s
  | .changePasswordPending => s
  | .changePasswordFulfilled _ => s
  | .changePasswordRejected _ => s
  | .logoutSync =>
      { auth := { s.auth with isAuthenticated := false, user := none, error := none }
        store := none }
  | .clearErrorSync =>
      { s with auth := { s.auth with error := none } }

/-- The `/citizens/me` response DTO as `refreshTokenThunk` reads it; the code
applies `|| "en"` and `|| ""` defaults to the last two fields. -/
structure MeDto where
  id : String
  fullName : String
  email : String
  phoneNumber : String
  languagePreference : Option String
  location : Option String
deriving DecidableEq, Repr

/-- The `checkAuth` thunk's tail: decode the token, fetch the profile by the
decoded subject; on fetch failure `removeAccessToken()` is called (in the
inner catch) and the outer catch rejects with the thrown plain `Error`'s
missing response message, i.e. `""`. -/
def checkAuthProfileStep (profile : String → Except (Option String) User)
    (store : TokenStore) (token : Token) : TokenStore × AuthAction :=
  match profile token.sub with
  | .ok u => (store, .checkAuthFulfilled token u)
  | .error _ => (none, .checkAuthRejected "")

/-- The `checkAuth` thunk.  `refreshResp` is the outcome of
`refreshAccessToken()`: `.error` for a rejected call, `.ok none` for a
response whose `data` is falsy (the code then falls through to the
valid-token path with the old token), `.ok (some t)` for a new token. -/
def checkAuthThunk (now : Nat) (refreshResp : Except Unit (Option Token))
    (profile : String → Except (Option String) User) (store : TokenStore) :
    TokenStore × AuthAction :=
  match store with
  | none => (none, .checkAuthRejected "No authentication token found")
  | some token =>
      if isTokenExpired now token then
        match refreshResp with
        | .error _ => (none, .checkAuthRejected "")
        | .ok none => checkAuthProfileStep profile (some token) token
        | .ok (some newTok) =>
            match profile newTok.sub with
            | .ok u => (some newTok, .checkAuthFulfilled newTok u)
            | .error _ => (none, .checkAuthRejected "")
      else
        checkAuthProfileStep profile (some token) token

/-- The `loginByEmailThunk`: on a successful `loginByEmail` the token is
stored, then the profile is fetched by the credential email; any failure is
rejected with the server message or the `"Invalid credentials"` fallback. -/
def loginByEmailThunk (email : String) (loginResp : Except (Option String) Token)
    (profile : String → Except (Option String) User) (store : TokenStore) :
    TokenStore × AuthAction :=
  match loginResp with
  | .error m => (store, .loginRejected (jsOr m "Invalid credentials"))
  | .ok tok =>
      match profile email with
      | .ok u => (some tok, .loginFulfilled tok u)
      | .error m => (some tok, .loginRejected (jsOr m "Invalid credentials"))

/-- The `refreshTokenThunk`: a refresh response with falsy `data` throws
`"No access token received"` (a plain `Error`, so the catch rejects with the
`"Token refresh failed"` fallback); on success the token is stored and the
profile re-derived from `/citizens/me` with `|| "en"` / `|| ""` defaults. -/
def refreshTokenThunk (refreshResp : Except (Option String) (Option Token))
    (me : Except (Option String) MeDto) (store : TokenStore) :
    TokenStore × AuthAction :=
  match refreshResp with
  | .error m => (store, .refreshRejected (jsOr m "Token refresh failed"))
  | .ok none => (store, .refreshRejected "Token refresh failed")
  | .ok (some tok) =>
      match me with
      | .ok d =>
          (some tok, .refreshFulfilled tok
            { id := d.id
              fullName := d.fullName
              email := d.email
              phoneNumber := d.phoneNumber
              languagePreference := jsOr d.languagePreference "en"
              location := jsOr d.location "" })
      | .error m => (some tok, .refreshRejected (jsOr m "Token refresh failed"))

/-- The `fetchCurrentUser` thunk: with no stored token it throws
`"No access token found"` (plain `Error`, so the fallback message is used);
otherwise it fetches the profile by the decoded subject. -/
def fetchCurrentUserThunk (profile : String → Except (Option String) User)
    (store : TokenStore) : TokenStore × AuthAction :=
  match store with
  | none => (none, .fetchUserRejected "Failed to fetch user data")
  | some tok =>
      match profile tok.sub with
      | .ok u => (some tok, .fetchUserFulfilled u)
      | .error m => (some tok, .fetchUserRejected (jsOr m "Failed to fetch user data"))

/-- One dispatched thunk together with the environment (server responses,
current time) its run observes. -/
inductive ThunkCall where
  | checkAuth (now : Nat) (refreshResp : Except Unit (Option Token))
      (profile : String → Except (Option String) User)
  | login (email : String) (loginResp : Except (Option String) Token)
      (profile : String → Except (Option String) User)
  | refresh (refreshResp : Except (Option String) (Option Token))
      (me : Except (Option String) MeDto)
  | fetchUser (profile : String → Except (Option String) User)
  | register (resp : Except (Option String) String)
  | changePw (resp : Except (Option String) String)
  | logoutCall

/-- The pending action a dispatch fires first. -/
def pendingAction : ThunkCall → AuthAction
  | .checkAuth _ _ _ => .checkAuthPending
  | .login _ _ _ => .loginPending
  | .refresh _ _ => .refreshPending
  | .fetchUser _ => .fetchUserPending
  | .register _ => .registerPending
  | .changePw _ => .changePasswordPending
  | .logoutCall => .logoutPending

/-- Run a thunk's body against the Token Store, yielding the new store
contents and the terminal action.  `logoutThunk`'s body is
`await logout(); return null`, where `logout` resolves to the slice's own
synchronous action creator (authService exports no `logout` and none is
imported), so it performs no server call, never throws, and always
fulfils. -/
def runThunk (call : ThunkCall) (store : TokenStore) : TokenStore × AuthAction :=
  match call with
  | .checkAuth now refreshResp profile => checkAuthThunk now refreshResp profile store
  | .login email loginResp profile => loginByEmailThunk email loginResp profile store
  | .refresh refreshResp me => refreshTokenThunk refreshResp me store
  | .fetchUser profile => fetchCurrentUserThunk profile store
  | .register resp =>
      (store, match resp with
        | .ok r => .registerFulfilled r
        | .error m => .registerRejected (jsOr m "Registration failed"))
  | .changePw resp =>
      (store, match resp with
        | .ok r => .changePasswordFulfilled r
        | .error m => .changePasswordRejected (jsOr m "Password change failed"))
  | .logoutCall => (store, .logoutFulfilled)

/-- A complete dispatch of one thunk: the pending reducer fires, the thunk
body runs against the store, then the terminal reducer fires. -/
def dispatch (call : ThunkCall) (s : ClientState) : ClientState :=
  let s1 := authReducer s (pendingAction call)
  let r := runThunk call s1.store
  authReducer { s1 with store := r.1 } r.2

/-- Character class `[@$!%*?&]` used by both the strength checker and the
reset-password regex. -/
def specialChars : List Char := ['@', '$', '!', '%', '*', '?', '&']

/-- Regex test `/[A-Z]/.test(password)`. -/
def hasUppercase (password : String) : Bool :=
  password.data.any Char.isUpper

/-- Regex test `/[a-z]/.test(password)`. -/
def hasLowercase (password : String) : Bool :=
  password.data.any Char.isLower

/-- Regex test `/\d/.test(password)`. -/
def hasNumberChar (password : String) : Bool :=
  password.data.any Char.isDigit

/-- Regex test `/[@$!%*?&]/.test(password)`. -/
def hasSpecialChar (password : String) : Bool :=
  password.data.any (fun c => specialChars.contains c)

/-- `password.length >= 8` in `checkPasswordStrength`. -/
def isLongEnough (password : String) : Bool :=
  decide (8 ≤ password.length)

/-- `passedChecks` of `checkPasswordStrength`: the five criteria, filtered by
`Boolean`, counted. -/
def passedChecks (password : String) : Nat :=
  ([hasUppercase password, hasLowercase password, hasNumberChar password,
    hasSpecialChar password, isLongEnough password].filter (fun b => b)).length

/-- The three strength labels of the ResetPassword screen. -/
inductive Strength where
  | weak
  | medium
  | strong
deriving DecidableEq, Repr

/-- `checkPasswordStrength` of the ResetPassword screen. -/
def checkPasswordStrength (password : String) : Strength :=
  if passedChecks password ≤ 2 then .weak
  else if passedChecks password ≤ 4 then .medium
  else .strong

/-- The body of `passwordRegex`
`/^(?=.*[a-z])(?=.*[A-Z])(?=.*\d)(?=.*[@$!%*?&])[A-Za-z\d@$!%*?&]{8,}$/`:
the four lookaheads, the restricted character set of the body, and the
8-character minimum. -/
def passwordRegexTest (password : String) : Bool :=
  hasLowercase password && hasUppercase password && hasNumberChar password &&
  hasSpecialChar password &&
  password.data.all (fun c => c.isAlpha || c.isDigit || specialChars.contains c) &&
  decide (8 ≤ password.length)

/-- `validateForm` of the ResetPassword screen: nonempty password of at least
8 characters, the `passwordRegex` gate, and matching confirmation. -/
def resetValidateForm (password confirmPassword : String) : Bool :=
  if password = "" ∨ password.length < 8 then false
  else if passwordRegexTest password = false then false
  else if password ≠ confirmPassword then false
  else true

/-- JavaScript `\s` on the characters these screens handle. -/
def isJsWhitespace (c : Char) : Bool :=
  c = ' ' || c = '\t' || c = '\n' || c = '\r' || c = '\x0b' || c = '\x0c'

/-- The class `[^\s@]` of the email pattern. -/
def emailAtomChar (c : Char) : Bool :=
  !(isJsWhitespace c) && c ≠ '@'

/-- Test of `/^[^\s@]+@[^\s@]+\.[^\s@]+$/` (used by ForgotPassword,
Register and the verification sender): some `@` at position `k ≥ 1` splits
the string into a nonempty prefix of `[^\s@]` characters and a tail of
`[^\s@]` characters containing a `.` that is neither its first nor its last
character. -/
def validEmailFormat (s : String) : Bool :=
  let cs := s.data
  (List.range cs.length).any fun k =>
    decide (cs.get? k = some '@') && decide (1 ≤ k) &&
    ((cs.take k).all emailAtomChar) &&
    (let tail := cs.drop (k + 1)
     tail.all emailAtomChar &&
     ((List.range tail.length).any fun i =>
        decide (tail.get? i = some '.') && decide (1 ≤ i) &&
        decide (i + 2 ≤ tail.length)))

/-- The class `[\d\s-]` of the phone pattern. -/
def phoneBodyChar (c : Char) : Bool :=
  c.isDigit || isJsWhitespace c || c = '-'

/-- Test of `/^\+?[\d\s-]{10,}$/` of the Register screen: an optional
leading `+`, then at least ten digit / whitespace / dash characters. -/
def validPhoneFormat (s : String) : Bool :=
  let cs := match s.data with
    | '+' :: rest => rest
    | cs => cs
  decide (10 ≤ cs.length) && cs.all phoneBodyChar

/-- `validateForm` of the Register screen: the six sequential checks, each
setting `isValid` to `false` (empty strings are the falsy case of
`!formData.email` / `!formData.phoneNumber`). -/
def registerValidateForm (email phoneNumber password confirmPassword : String)
    (isEmailVerified : Bool) : Bool :=
  let isValid := true
  let isValid := if email = "" ∧ phoneNumber = "" then false else isValid
  let isValid := if email ≠ "" ∧ validEmailFormat email = false then false else isValid
  let isValid := if phoneNumber ≠ "" ∧ validPhoneFormat phoneNumber = false then false else isValid
  let isValid := if password.length < 8 then false else isValid
  let isValid := if password ≠ confirmPassword then false else isValid
  let isValid := if email ≠ "" ∧ isEmailVerified = false then false else isValid
  isValid

/-- The Register screen's email-verification state the OTP handlers touch. -/
structure OtpFlow where
  isEmailVerified : Bool
  showOtpModal : Bool
  verificationError : String
  isVerifying : Bool
deriving DecidableEq, Repr

/-- Outcome of the `POST /mail/confirm` call as `handleVerifyOtp` reads it:
a resolved response with its (possibly absent or empty) `message`, or a
rejected call with its (possibly absent or empty) error message. -/
inductive ConfirmResult where
  | resolved (message : Option String)
  | rejected (message : Option String)
deriving DecidableEq, Repr

/-- `handleVerifyOtp` of the Register screen: a short joined code is refused
locally; otherwise `isVerifying` is raised for the call, the exact message
`"Email verified."` verifies the email and closes the modal, and any other
outcome stores an inline error (server message, or the `"Invalid OTP"` /
`"Verification failed"` fallback when that message is falsy); `finally`
lowers `isVerifying`. -/
def handleVerifyOtp (otp : List String) (resp : ConfirmResult) (st : OtpFlow) :
    OtpFlow :=
  let otpValue := String.join otp
  if otpValue.length ≠ 6 then
    { st with verificationError := "Please enter a valid 6-digit OTP" }
  else
    let st1 := { st with isVerifying := true, verificationError := "" }
    let st2 := match resp with
      | .resolved msg =>
          if msg = some "Email verified." then
            { st1 with isEmailVerified := true, showOtpModal := false }
          else
            { st1 with verificationError := jsOr msg "Invalid OTP" }
      | .rejected msg =>
          { st1 with verificationError := jsOr msg "Verification failed" }
    { st2 with isVerifying := false }

/-- What a render of `ProtectedRoute` yields: the protected content, a
redirect, or a thrown exception. -/
inductive RenderResult where
  | render
  | redirectToLogin (fromPath : String)
  | thrown (error : String)
deriving DecidableEq, Repr

/-- The `useAuth()` call of `ProtectedRoute`: the import is the auth
module's default export, which is `authSlice.reducer` — not a hook or a
selector — and the call passes no arguments.  A Redux Toolkit reducer
dereferences `action.type` of its (here undefined) action before anything
else, so the call throws a `TypeError` instead of returning auth state. -/
def useAuthNoArgs : Except String AuthState :=
  .error "TypeError: Cannot read properties of undefined"

/-- `ProtectedRoute` as the source renders it: destructure
`isAuthenticated` from `useAuth()`, redirect unauthenticated navigation to
`/login` carrying the requested location, otherwise render the children.
The `useAuth()` call throws first, so the guard logic below it is
unreachable and every render crashes. -/
def protectedRouteRender (location : String) : RenderResult :=
  match useAuthNoArgs with
  | .error e => .thrown e
  | .ok auth =>
      if !auth.isAuthenticated then .redirectToLogin location else .render

/-- The Login screen's redirect target:
`location.state?.from?.pathname || "/dashboard"`. -/
def loginFrom (recorded : Option String) : String :=
  jsOr recorded "/dashboard"

/-- A logged-in client: authenticated state and a stored token. -/
def loggedInState : ClientState :=
  { auth := { isAuthenticated := true
              user := some { id := "1", fullName := "Jane Doe", email := "a@b.c",
                             phoneNumber := "0788123456", languagePreference := "en",
                             location := "Kigali" }
              loading := false
              error := none }
    store := some { sub := "a@b.c", exp := 99 } }

/-- C2 (code defect): dispatching `logoutThunk` from a logged-in client
clears the auth state but leaves the stored token in place.  The thunk body
`await logout()` resolves the slice's own `logout` action creator (nothing
named `logout` is imported, and the created action is never dispatched), so
no server call happens, the thunk always fulfils, and `removeAccessToken()`
never runs on this path — only the unused synchronous `logout` reducer would
clear the store. -/
theorem logoutThunk_leaves_token_store :
    (dispatch .logoutCall loggedInState).auth.isAuthenticated = false ∧
    (dispatch .logoutCall loggedInState).auth.user = none ∧
    (dispatch .logoutCall loggedInState).store = some { sub := "a@b.c", exp := 99 } :=
  ⟨rfl, rfl, rfl⟩

/-- C3: for every stored token that is expired, when the silent refresh
attempt during `checkAuth()` fails (the refresh call rejects), the dispatch
terminates with `isAuthenticated=false`, no user, and an empty Token
Store. -/
theorem checkAuth_expired_refresh_failure (now : Nat) (tok : Token)
    (profile : String → Except (Option String) User) (s : ClientState)
    (hstore : s.store = some tok) (hexp : isTokenExpired now tok = true) :
    (dispatch (.checkAuth now (.error ()) profile) s).auth.isAuthenticated = false ∧
    (dispatch (.checkAuth now (.error ()) profile) s).auth.user = none ∧
    (dispatch (.checkAuth now (.error ()) profile) s).store = none := by
  simp [dispatch, pendingAction, runThunk, checkAuthThunk, authReducer, hstore, hexp]

/-- Concrete run of `checkAuth_expired_refresh_failure`: a token expired at
time 0, checked at time 1, with a failing refresh. -/
theorem checkAuth_expired_refresh_failure_check :
    (dispatch (.checkAuth 1 (.error ()) (fun _ => .error none))
        (initClientState (some { sub := "a@b.c", exp := 0 }))).auth.isAuthenticated = false ∧
    (dispatch (.checkAuth 1 (.error ()) (fun _ => .error none))
        (initClientState (some { sub := "a@b.c", exp := 0 }))).auth.user = none ∧
    (dispatch (.checkAuth 1 (.error ()) (fun _ => .error none))
        (initClientState (some { sub := "a@b.c", exp := 0 }))).store = none :=
  checkAuth_expired_refresh_failure 1 { sub := "a@b.c", exp := 0 }
    (fun _ => .error none) (initClientState (some { sub := "a@b.c", exp := 0 })) rfl rfl

/-- A state carrying a stale error, used to show `registerCitizen` actions
change nothing. -/
def staleErrorState : ClientState :=
  { auth := { isAuthenticated := false, user := none, loading := false, error := some "boom" }
    store := none }

/-- C4 fails as stated: a `registerCitizen` dispatch does not set
`loading=true` and `error=null` — the slice registers no reducers for that
thunk, so the whole dispatch leaves the state untouched (here a stale error
survives and `loading` never rises). -/
theorem registerCitizen_dispatch_changes_nothing :
    dispatch (.register (.ok "Citizen saved")) staleErrorState = staleErrorState ∧
    (dispatch (.register (.ok "Citizen saved")) staleErrorState).auth.loading = false ∧
    (dispatch (.register (.ok "Citizen saved")) staleErrorState).auth.error = some "boom" :=
  ⟨rfl, rfl, rfl⟩

/-- C4 amended: `checkAuth`, `login`, `refresh` and `logout` dispatches set
`loading=true, error=null`; their terminal reducers set `loading=false`;
rejections of `checkAuth`, `login` and `refresh` set `error` and reset
`isAuthenticated=false, user=null`; `logout`'s rejection sets `error` but
leaves `isAuthenticated` and `user` unchanged; and `registerCitizen` has no
reducers, so none of its actions change the state. -/
theorem authReducer_lifecycle (s : ClientState) (tok : Token) (u : User) (m r : String) :
    (authReducer s .checkAuthPending).auth.loading = true ∧
    (authReducer s .checkAuthPending).auth.error = none ∧
    (authReducer s .loginPending).auth.loading = true ∧
    (authReducer s .loginPending).auth.error = none ∧
    (authReducer s .refreshPending).auth.loading = true ∧
    (authReducer s .refreshPending).auth.error = none ∧
    (authReducer s .logoutPending).auth.loading = true ∧
    (authReducer s .logoutPending).auth.error = none ∧
    (authReducer s (.checkAuthFulfilled tok u)).auth.loading = false ∧
    (authReducer s (.loginFulfilled tok u)).auth.loading = false ∧
    (authReducer s (.refreshFulfilled tok u)).auth.loading = false ∧
    (authReducer s .logoutFulfilled).auth.loading = false ∧
    (authReducer s (.checkAuthRejected m)).auth.loading = false ∧
    (authReducer s (.checkAuthRejected m)).auth.error = some m ∧
    (authReducer s (.checkAuthRejected m)).auth.isAuthenticated = false ∧
    (authReducer s (.checkAuthRejected m)).auth.user = none ∧
    (authReducer s (.loginRejected m)).auth.loading = false ∧
    (authReducer s (.loginRejected m)).auth.error = some m ∧
    (authReducer s (.loginRejected m)).auth.isAuthenticated = false ∧
    (authReducer s (.loginRejected m)).auth.user = none ∧
    (authReducer s (.refreshRejected m)).auth.loading = false ∧
    (authReducer s (.refreshRejected m)).auth.error = some m ∧
    (authReducer s (.refreshRejected m)).auth.isAuthenticated = false ∧
    (authReducer s (.refreshRejected m)).auth.user = none ∧
    (authReducer s (.logoutRejected m)).auth.loading = false ∧
    (authReducer s (.logoutRejected m)).auth.error = some m ∧
    (authReducer s (.logoutRejected m)).auth.isAuthenticated = s.auth.isAuthenticated ∧
    (authReducer s (.logoutRejected m)).auth.user = s.auth.user ∧
    authReducer s .registerPending = s ∧
    authReducer s (.registerFulfilled r) = s ∧
    authReducer s (.registerRejected m) = s :=
  ⟨rfl, rfl, rfl, rfl, rfl, rfl, rfl, rfl, rfl, rfl, rfl, rfl, rfl, rfl, rfl, rfl,
   rfl, rfl, rfl, rfl, rfl, rfl, rfl, rfl, rfl, rfl, rfl, rfl, rfl, rfl, rfl⟩

/-- C5: the Register screen's local validation returns `isValid=false`
whenever both email and phone number are empty, or an email is supplied but
not verified, or the password has fewer than 8 characters, or the
confirmation differs from the password. -/
theorem registerValidateForm_blocks (email phone pw cpw : String) (ver : Bool)
    (h : (email = "" ∧ phone = "") ∨ (email ≠ "" ∧ ver = false) ∨
      pw.length < 8 ∨ cpw ≠ pw) :
    registerValidateForm email phone pw cpw ver = false := by
  unfold registerValidateForm
  rcases h with ⟨h1, h2⟩ | ⟨h1, h2⟩ | h | h <;> split_ifs <;> simp_all

/-- Concrete run of `registerValidateForm_blocks`: both contact fields
empty. -/
theorem registerValidateForm_blocks_check :
    registerValidateForm "" "" "password1" "password1" false = false :=
  registerValidateForm_blocks "" "" "password1" "password1" false (Or.inl ⟨rfl, rfl⟩)

/-- The OTP modal as it stands when a code is submitted. -/
def otpFlowOpen : OtpFlow :=
  { isEmailVerified := false, showOtpModal := true, verificationError := "", isVerifying := false }

/-- A complete six-digit code. -/
def otpSixDigits : List String := ["1", "2", "3", "4", "5", "6"]

/-- C6 fails as stated: a resolved confirmation whose message is the empty
string is a message other than `"Email verified."`, yet the inline error
shown is the fallback `"Invalid OTP"`, not that message. -/
theorem handleVerifyOtp_empty_message_fallback :
    (handleVerifyOtp otpSixDigits (.resolved (some "")) otpFlowOpen).isEmailVerified = false ∧
    (handleVerifyOtp otpSixDigits (.resolved (some "")) otpFlowOpen).verificationError
      = "Invalid OTP" ∧
    "Invalid OTP" ≠ ("" : String) :=
  ⟨rfl, rfl, by decide⟩

/-- C6 amended: with a full six-digit code, a resolved confirmation verifies
the email and closes the modal exactly when the message is
`"Email verified."`; any other resolved response leaves the email
unverified, keeps the modal as it was, and shows the server message when it
is non-empty, else the `"Invalid OTP"` fallback; a rejected call likewise
leaves the email unverified and shows the error message or the
`"Verification failed"` fallback. -/
theorem handleVerifyOtp_amended (st : OtpFlow) (otp : List String) (msg : Option String)
    (hlen : (String.join otp).length = 6) (hver : st.isEmailVerified = false) :
    ((handleVerifyOtp otp (.resolved msg) st).isEmailVerified = true ∧
      (handleVerifyOtp otp (.resolved msg) st).showOtpModal = false
        ↔ msg = some "Email verified.") ∧
    (msg ≠ some "Email verified." →
      (handleVerifyOtp otp (.resolved msg) st).isEmailVerified = false ∧
      (handleVerifyOtp otp (.resolved msg) st).showOtpModal = st.showOtpModal ∧
      (handleVerifyOtp otp (.resolved msg) st).verificationError = jsOr msg "Invalid OTP") ∧
    (∀ em : Option String,
      (handleVerifyOtp otp (.rejected em) st).isEmailVerified = false ∧
      (handleVerifyOtp otp (.rejected em) st).verificationError
        = jsOr em "Verification failed") := by
  by_cases hm : msg = some "Email verified." <;>
    simp [handleVerifyOtp, hlen, hm, hver]

/-- Concrete run of `handleVerifyOtp_amended`: the exact success message
verifies the email. -/
theorem handleVerifyOtp_amended_check :
    (handleVerifyOtp otpSixDigits (.resolved (some "Email verified.")) otpFlowOpen).isEmailVerified
      = true :=
  ((handleVerifyOtp_amended otpFlowOpen otpSixDigits (some "Email verified.")
      rfl rfl).1.mpr rfl).1

/-- C7: the reset-password submission gate accepts only passwords of length
at least 8 containing an uppercase letter, a lowercase letter, a digit and a
special character; in particular it accepts "Str0ng!Pass" and rejects
"weakpass". -/
theorem resetValidateForm_gate :
    (∀ p c : String, resetValidateForm p c = true →
      8 ≤ p.length ∧ hasUppercase p = true ∧ hasLowercase p = true ∧
      hasNumberChar p = true ∧ hasSpecialChar p = true) ∧
    resetValidateForm "Str0ng!Pass" "Str0ng!Pass" = true ∧
    resetValidateForm "weakpass" "weakpass" = false := by
  refine ⟨fun p c h => ?_, by decide, by decide⟩
  unfold resetValidateForm at h
  split_ifs at h with h1 h2 h3
  have hreg : passwordRegexTest p = true := by
    revert h2
    cases passwordRegexTest p <;> simp
  simp only [passwordRegexTest, Bool.and_eq_true, decide_eq_true_eq] at hreg
  obtain ⟨⟨⟨⟨⟨hlo, hup⟩, hnum⟩, hsp⟩, -⟩, hlen⟩ := hreg
  exact ⟨hlen, hup, hlo, hnum, hsp⟩

/-- C8: `checkPasswordStrength` counts how many of the five criteria
(uppercase, lowercase, digit, special character, length at least 8) pass and
returns `weak` when at most 2 pass, `medium` when 3 or 4 pass, and `strong`
when all 5 pass; `"abc"` scores `weak` and `"Abcdef12"` meets 4 criteria and
scores `medium`. -/
theorem checkPasswordStrength_by_count :
    (∀ p : String,
      (checkPasswordStrength p = .weak ↔ passedChecks p ≤ 2) ∧
      (checkPasswordStrength p = .medium ↔ (passedChecks p = 3 ∨ passedChecks p = 4)) ∧
      (checkPasswordStrength p = .strong ↔ passedChecks p = 5)) ∧
    checkPasswordStrength "abc" = .weak ∧
    passedChecks "Abcdef12" = 4 ∧
    checkPasswordStrength "Abcdef12" = .medium := by
  refine ⟨fun p => ?_, by decide, by decide, by decide⟩
  have h5 : passedChecks p ≤ 5 := by
    have := List.length_filter_le (fun b : Bool => b)
      [hasUppercase p, hasLowercase p, hasNumberChar p, hasSpecialChar p, isLongEnough p]
    simpa [passedChecks] using this
  unfold checkPasswordStrength
  split_ifs with h1 h2 <;> refine ⟨?_, ?_, ?_⟩ <;> simp <;> omega

/-- C10: any password accepted by the reset-password regex gate meets all
five strength criteria, so the strength scorer necessarily returns
`strong`. -/
theorem passwordRegexTest_implies_strong (p : String)
    (h : passwordRegexTest p = true) : checkPasswordStrength p = .strong := by
  simp only [passwordRegexTest, Bool.and_eq_true] at h
  obtain ⟨⟨⟨⟨⟨hlo, hup⟩, hnum⟩, hsp⟩, -⟩, hlen⟩ := h
  have hle : isLongEnough p = true := hlen
  simp [checkPasswordStrength, passedChecks, hlo, hup, hnum, hsp, hle]

/-- Concrete run of `passwordRegexTest_implies_strong`. -/
theorem passwordRegexTest_implies_strong_check :
    checkPasswordStrength "Str0ng!Pass" = .strong :=
  passwordRegexTest_implies_strong "Str0ng!Pass" (by decide)

/-- C9 (code defect): every render of `ProtectedRoute` throws — `useAuth`
resolves to the auth module's default export, the slice reducer, and
calling it with no action makes Redux Toolkit read `action.type` of
`undefined` — so at a concrete requested location the guard neither renders
the protected content nor issues the `/login` redirect carrying that
location; only the Login screen's fallback-target selection behaves as
claimed. -/
theorem protectedRoute_crashes :
    protectedRouteRender "/profile"
      = .thrown "TypeError: Cannot read properties of undefined" ∧
    protectedRouteRender "/profile" ≠ .render ∧
    protectedRouteRender "/profile" ≠ .redirectToLogin "/profile" ∧
    loginFrom (some "/profile") = "/profile" ∧
    loginFrom none = "/dashboard" :=
  ⟨rfl, by decide, by decide, rfl, rfl⟩

/-- A token whose embedded expiry has already passed at any time ≥ 0. -/
def expiredStoredToken : Token := { sub := "a@b.c", exp := 0 }

/-- C1 fails as stated at initialization: with an expired token in the Token
Store, `initialState` computes `isAuthenticated` from mere token presence
(`!!getAccessToken()`), so the state is authenticated while the only stored
token is expired, `user` is `null`, and `loading` is `false` (no population
request in flight). -/
theorem initialState_expired_token_violation :
    (initClientState (some expiredStoredToken)).auth.isAuthenticated = true ∧
    isTokenExpired 1 expiredStoredToken = true ∧
    (initClientState (some expiredStoredToken)).auth.user = none ∧
    (initClientState (some expiredStoredToken)).auth.loading = false :=
  ⟨rfl, rfl, rfl, rfl⟩

/-- Token-presence invariant: an authenticated state implies some token
(possibly expired) sits in the Token Store. -/
def tokenPresentInv (s : ClientState) : Prop :=
  s.auth.isAuthenticated = true → s.store.isSome = true

/-- The thunks the slice registers reducers for (`registerCitizen` and
`changePassword` register none and leave the state untouched). -/
def coreThunk : ThunkCall → Prop
  | .register _ => False
  | .changePw _ => False
  | _ => True

/-- Client states reachable from module initialization through complete
thunk dispatches and the two synchronous reducers. -/
inductive ReachableState : ClientState → Prop where
  | init (store : TokenStore) : ReachableState (initClientState store)
  | step (call : ThunkCall) {s : ClientState} :
      ReachableState s → ReachableState (dispatch call s)
  | syncLogout {s : ClientState} :
      ReachableState s → ReachableState (authReducer s .logoutSync)
  | syncClearError {s : ClientState} :
      ReachableState s → ReachableState (authReducer s .clearErrorSync)

/-- Every complete dispatch preserves the token-presence invariant. -/
theorem dispatch_tokenPresent (call : ThunkCall) (s : ClientState)
    (h : tokenPresentInv s) : tokenPresentInv (dispatch call s) := by
  cases call with
  | checkAuth now rr profile =>
      rcases hs : s.store with - | tok
      · simp [tokenPresentInv, dispatch, pendingAction, runThunk, checkAuthThunk,
          authReducer, hs]
      · by_cases hexp : isTokenExpired now tok = true
        · rcases rr with e | nt
          · simp [tokenPresentInv, dispatch, pendingAction, runThunk, checkAuthThunk,
              authReducer, hs, hexp]
          · rcases nt with - | newTok
            · rcases hp : profile tok.sub with m | u <;>
                simp [tokenPresentInv, dispatch, pendingAction, runThunk, checkAuthThunk,
                  checkAuthProfileStep, authReducer, hs, hexp, hp]
            · rcases hp : profile newTok.sub with m | u <;>
                simp [tokenPresentInv, dispatch, pendingAction, runThunk, checkAuthThunk,
                  authReducer, hs, hexp, hp]
        · rcases hp : profile tok.sub with m | u <;>
            simp [tokenPresentInv, dispatch, pendingAction, runThunk, checkAuthThunk,
              checkAuthProfileStep, authReducer, hs, hexp, hp]
  | login email loginResp profile =>
      rcases loginResp with m | tok
      · simp [tokenPresentInv, dispatch, pendingAction, runThunk, loginByEmailThunk,
          authReducer]
      · rcases hp : profile email with m | u <;>
          simp [tokenPresentInv, dispatch, pendingAction, runThunk, loginByEmailThunk,
            authReducer, hp]
  | refresh rr me =>
      rcases rr with m | nt
      · simp [tokenPresentInv, dispatch, pendingAction, runThunk, refreshTokenThunk,
          authReducer]
      · rcases nt with - | tok
        · simp [tokenPresentInv, dispatch, pendingAction, runThunk, refreshTokenThunk,
            authReducer]
        · rcases me with m | d <;>
            simp [tokenPresentInv, dispatch, pendingAction, runThunk, refreshTokenThunk,
              authReducer]
  | fetchUser profile =>
      rcases hs : s.store with - | tok
      · simp [tokenPresentInv, dispatch, pendingAction, runThunk, fetchCurrentUserThunk,
          authReducer, hs]
      · rcases hp : profile tok.sub with m | u <;>
          simp [tokenPresentInv, dispatch, pendingAction, runThunk, fetchCurrentUserThunk,
            authReducer, hs, hp]
  | register resp =>
      rcases resp with m | r <;>
        simpa [tokenPresentInv, dispatch, pendingAction, runThunk, authReducer] using h
  | changePw resp =>
      rcases resp with m | r <;>
        simpa [tokenPresentInv, dispatch, pendingAction, runThunk, authReducer] using h
  | logoutCall =>
      simp [tokenPresentInv, dispatch, pendingAction, runThunk, authReducer]

/-- C1 amended: for every reachable client state, `isAuthenticated == true`
implies a token — possibly expired — is present in the Token Store; and
after every complete dispatch of the five reducer-backed thunks (checkAuth,
login, refresh, fetchCurrentUser, logout), `isAuthenticated == true` implies
`user` is populated.  At initialization `isAuthenticated` reflects mere
token presence: the token may be expired and `user` is null with nothing in
flight. -/
theorem auth_token_presence_invariant :
    (∀ s : ClientState, ReachableState s → tokenPresentInv s) ∧
    (∀ (call : ThunkCall) (s : ClientState), coreThunk call →
      (dispatch call s).auth.isAuthenticated = true →
      (dispatch call s).auth.user.isSome = true) := by
  constructor
  · intro s hs
    induction hs with
    | init store =>
        intro h
        simpa [initClientState, initialState] using h
    | step call hs ih => exact dispatch_tokenPresent call _ ih
    | syncLogout hs ih =>
        intro h
        simp [authReducer] at h
    | syncClearError hs ih =>
        intro h
        exact ih h
  · intro call s hcore
    cases call with
    | checkAuth now rr profile =>
        rcases hs : s.store with - | tok
        · simp [dispatch, pendingAction, runThunk, checkAuthThunk, authReducer, hs]
        · by_cases hexp : isTokenExpired now tok = true
          · rcases rr with e | nt
            · simp [dispatch, pendingAction, runThunk, checkAuthThunk, authReducer,
                hs, hexp]
            · rcases nt with - | newTok
              · rcases hp : profile tok.sub with m | u <;>
                  simp [dispatch, pendingAction, runThunk, checkAuthThunk,
                    checkAuthProfileStep, authReducer, hs, hexp, hp]
              · rcases hp : profile newTok.sub with m | u <;>
                  simp [dispatch, pendingAction, runThunk, checkAuthThunk, authReducer,
                    hs, hexp, hp]
          · rcases hp : profile tok.sub with m | u <;>
              simp [dispatch, pendingAction, runThunk, checkAuthThunk,
                checkAuthProfileStep, authReducer, hs, hexp, hp]
    | login email loginResp profile =>
        rcases loginResp with m | tok
        · simp [dispatch, pendingAction, runThunk, loginByEmailThunk, authReducer]
        · rcases hp : profile email with m | u <;>
            simp [dispatch, pendingAction, runThunk, loginByEmailThunk, authReducer, hp]
    | refresh rr me =>
        rcases rr with m | nt
        · simp [dispatch, pendingAction, runThunk, refreshTokenThunk, authReducer]
        · rcases nt with - | tok
          · simp [dispatch, pendingAction, runThunk, refreshTokenThunk, authReducer]
          · rcases me with m | d <;>
              simp [dispatch, pendingAction, runThunk, refreshTokenThunk, authReducer]
    | fetchUser profile =>
        rcases hs : s.store with - | tok
        · simp [dispatch, pendingAction, runThunk, fetchCurrentUserThunk, authReducer, hs]
        · rcases hp : profile tok.sub with m | u <;>
            simp [dispatch, pendingAction, runThunk, fetchCurrentUserThunk, authReducer,
              hs, hp]
    | register resp => exact absurd hcore (by simp [coreThunk])
    | changePw resp => exact absurd hcore (by simp [coreThunk])
    | logoutCall =>
        simp [dispatch, pendingAction, runThunk, authReducer]

/-- Concrete run of `auth_token_presence_invariant`: the empty-store initial
state, and a logout dispatch from it. -/
theorem auth_token_presence_invariant_check :
    tokenPresentInv (initClientState none) ∧
    ((dispatch .logoutCall (initClientState none)).auth.isAuthenticated = true →
      (dispatch .logoutCall (initClientState none)).auth.user.isSome = true) :=
  ⟨auth_token_presence_invariant.1 (initClientState none) (.init none),
   auth_token_presence_invariant.2 .logoutCall (initClientState none) trivial⟩
